import Mathlib

/-!
Shallow embedding of `src/render/tree/node/mod.rs` (the `Node` type of the
erdtree repository): construction of a display-ready node from a directory
entry, icon resolution, permission styling and display composition.

External collaborators that live outside this file's source (the icon tables,
the LS_COLORS table, the permissions theme, the permission-bit decoder, the
symlink-target resolver, the physical-size query and the tty probe) are
modelled at their interface boundary, exactly as the spec describes them in
its section 6, and are passed in through an `Env` value standing for the
process-global state the Rust code reads.
-/

/-! ## ANSI painting primitives (ansi_term crate, interface level) -/

/-- Terminal escape character. -/
def escChar : Char := Char.ofNat 27

/-- An ANSI terminal color, identified by its color code. -/
structure Color where
  code : Nat
deriving DecidableEq

/-- ANSI reset sequence appended by `ansi_term` after painted text. -/
def ansiReset : String := String.singleton escChar ++ "[0m"

/-- Rendering of `color.paint(s)` from the `ansi_term` crate: the text wrapped
in a foreground-color escape sequence. -/
def plainPaint (c : Color) (s : String) : String :=
  String.singleton escChar ++ "[" ++ toString c.code ++ "m" ++ s ++ ansiReset

/-- Rendering of `fg.bold().paint(s)` from the `ansi_term` crate: the text
wrapped in a bold, foreground-colored escape sequence. -/
def boldPaint (c : Color) (s : String) : String :=
  String.singleton escChar ++ "[1;" ++ toString c.code ++ "m" ++ s ++ ansiReset

/-- Modelled from the spec: `icons::col` of the external `icons` module
(icon tables are external lookup tables per spec section 6), which wraps a
glyph in a 256-color ANSI escape sequence for the given color code. -/
def icons_col (code : Nat) (glyph : String) : String :=
  String.singleton escChar ++ "[38;5;" ++ toString code ++ "m" ++ glyph ++ ansiReset

/-- The arrow character used before a symlink target name. -/
def arrowChar : Char := Char.ofNat 0x2192

/-- Rust format-string width padding: left-aligned text padded on the right
with spaces up to width `w` (no truncation if the text is longer). -/
def padTo (s : String) (w : Nat) : String :=
  s ++ String.mk (List.replicate (w - s.length) ' ')

/-- Whether a string contains a given character. -/
def containsChar (s : String) (c : Char) : Bool :=
  s.data.contains c

/-! ## Error types -/

/-- Error raised by the external `ignore` crate when fetching metadata. -/
inductive IgnoreError where
  | ioError (code : Nat)
deriving DecidableEq

/-- The typed error of `render::tree::error::Error`: a metadata fetch failure
wraps the underlying `ignore` error; a permission decode failure comes from
the symbolic-notation decoder. -/
inductive Error where
  | dir_entry (e : IgnoreError)
  | permission_decode
deriving DecidableEq

/-- Error of the external `render::styles` module: its global tables are
behind once-cells and querying them can fail when uninitialized. -/
inductive StyleError where
  | uninitialized
deriving DecidableEq

/-! ## Filesystem data (interface level) -/

/-- Symbolic permission notation, e.g. "rwxr-xr--"; the displayed form of the
`FileMode` of the external `fs::permissions` module. -/
structure FileMode where
  symbolic : String
deriving DecidableEq

/-- Modelled from the spec: raw permission bits as seen by the external
permission decoder, which "given raw mode bits, returns symbolic notation or
a decode error" (spec section 6). -/
inductive Permissions where
  | decodable (mode : FileMode)
  | undecodable
deriving DecidableEq

/-- Modelled from the spec: `try_mode_symbolic_notation` of the external
`fs::permissions` module; the decode error is surfaced as the typed
permission-decode error. -/
def Permissions.try_mode_symbolic : Permissions → Except Error FileMode
  | .decodable m => .ok m
  | .undecodable => .error .permission_decode

/-- Platform inode identifier (external `fs::inode` module). -/
structure Inode where
  id : Nat
deriving DecidableEq

/-- Filesystem metadata snapshot. `physical_size` is the result of the
external physical-block-usage query (`None` when unsupported or failed,
as the spec allows); `inode` is the result of `Inode::try_from(&metadata)`
already demoted to an option by `.ok()`. -/
structure Metadata where
  len : Nat
  permissions : Permissions
  physical_size : Option Nat
  inode : Option Inode
deriving DecidableEq

/-- File type classes distinguished by the code (unix). -/
inductive FileType where
  | dir
  | file
  | symlink
  | fifo
  | socket
  | char_device
  | block_device
deriving DecidableEq

/-- Whether the file type is a regular file. -/
def FileType.is_file : FileType → Bool
  | .file => true
  | _ => false

/-- Whether the file type is a directory. -/
def FileType.is_dir : FileType → Bool
  | .dir => true
  | _ => false

/-- A filesystem path at the interface level of `std::path::Path`: the
results of its `file_name` and `extension` accessors. -/
structure FsPath where
  file_name : Option String
  extension : Option String
deriving DecidableEq

deriving instance DecidableEq for Except

/-- A directory entry as yielded by the traversal (the `ignore::DirEntry`
interface), together with the results of the external calls the code makes
on it: `metadata_result` for `DirEntry::metadata`, `symlink_target` for
`crate::fs::symlink_target` (best-effort, `None` on failure per spec), and
`entry_xattrs` for `DirEntry::get_xattrs` (extended-attribute query, `None`
on incompatible platforms or failure). -/
structure DirEntry where
  path : FsPath
  file_name : String
  depth : Nat
  file_type : Option FileType
  path_is_symlink : Bool
  metadata_result : Except IgnoreError Metadata
  symlink_target : Option FsPath
  entry_xattrs : Option (List String)
deriving DecidableEq

/-! ## Styles (ansi_term / lscolors interface level) -/

/-- An `ansi_term` style; only the foreground color is inspected by the
code (its patterns match on `foreground`, everything else is wildcarded). -/
structure Style where
  foreground : Option Color
deriving DecidableEq

/-- `Style::default()`: no foreground color. -/
def Style.default : Style := ⟨none⟩

/-- The external LS_COLORS table: a path+metadata lookup returning an
optional style (the `lscolors` style already converted by
`to_ansi_term_style`). -/
structure LsColors where
  style_for_path_with_metadata : FsPath → Metadata → Option Style

/-! ## Process-global environment -/

/-- The process-global state read by the code: the tty probe
(`tty::stdout_is_tty`), the once-cell tables of `render::styles`
(`get_ls_colors`, `get_permissions_theme`) and the lookup tables of the
`icons` module (by file type, by extension, by exact file name, plus the
default fallback pair), all modelled from the spec's section 6 interface
contracts. Extension and default lookups return a (color-code, glyph)
pair; the file-type and file-name lookups return a glyph. -/
structure Env where
  stdout_is_tty : Bool
  ls_colors : Except StyleError LsColors
  permissions_theme : Except StyleError (Char → Option Color)
  icon_from_file_type : FileType → Option String
  icon_from_ext : String → Option (Nat × String)
  icon_from_file_name : String → Option String
  default_icon : Nat × String

/-! ## Context and file sizes -/

/-- Disk usage mode. -/
inductive DiskUsage where
  | logical
  | physical
deriving DecidableEq

/-- Unit scheme for size display (binary or SI), an external concern of the
disk-usage module. -/
inductive UnitKind where
  | bin
  | si
deriving DecidableEq

/-- The rendering context (configuration) consumed by construction and
display: color on/off, long format, size suppression, disk-usage mode,
unit and scale, icons on/off. -/
structure Context where
  no_color_flag : Bool
  long : Bool
  suppress_size : Bool
  disk_usage : DiskUsage
  unit : UnitKind
  scale : Nat
  icons : Bool
deriving DecidableEq

/-- `Context::no_color`: whether color output is globally disabled. -/
def Context.no_color (ctx : Context) : Bool := ctx.no_color_flag

/-- A computed display size (external `disk_usage::file_size` module,
modelled from the spec at its interface: bytes plus display configuration). -/
structure FileSize where
  bytes : Nat
  unit : UnitKind
  scale : Nat
deriving DecidableEq

/-- `FileSize::logical`: the size as reported by metadata. -/
def FileSize.logical (md : Metadata) (unit : UnitKind) (scale : Nat) : FileSize :=
  ⟨md.len, unit, scale⟩

/-- Modelled from the spec: `FileSize::physical` queries actual block usage
and "may itself yield `None` on unsupported platforms" (spec section 4.1);
the query result is carried by the metadata snapshot. -/
def FileSize.physical (_p : FsPath) (md : Metadata) (unit : UnitKind) (scale : Nat) :
    Option FileSize :=
  md.physical_size.map (fun b => ⟨b, unit, scale⟩)

/-- Modelled from the spec: the formatted size string (exact formatting is
owned by the external size resolver; only its presence matters here). -/
def FileSize.format (s : FileSize) (_pad : Bool) : String :=
  toString s.bytes ++ " B"

/-- Modelled from the spec: the blank placeholder of equal width used when no
size is available. -/
def FileSize.empty_string (_ctx : Context) : String := "-"

/-! ## Node -/

/-- A node of the tree, created from a directory entry: the display-ready
representation of one filesystem entry (struct `Node` of the source). -/
structure Node where
  dir_entry : DirEntry
  metadata : Metadata
  file_size : Option FileSize
  style : Option Style
  icon : Option String
  symlink_target : Option FsPath
  inode : Option Inode
  xattrs : Option (List String)
deriving DecidableEq

/-- `Node::new`: initializes a new node from its parts. -/
def Node.new (dir_entry : DirEntry) (metadata : Metadata) (file_size : Option FileSize)
    (style : Option Style) (icon : Option String) (symlink_target : Option FsPath)
    (inode : Option Inode) (xattrs : Option (List String)) : Node :=
  ⟨dir_entry, metadata, file_size, style, icon, symlink_target, inode, xattrs⟩

/-- `Node::file_name`: the entry's own file name (for a symlink, the name of
the symlink, not of the target). -/
def Node.file_name (n : Node) : String := n.dir_entry.file_name

/-- `Node::file_name_lossy`: the file name as a string (the lossy conversion
is the identity in this embedding, which carries names as strings). -/
def Node.file_name_lossy (n : Node) : String := n.file_name

/-- `Node::depth`. -/
def Node.depth (n : Node) : Nat := n.dir_entry.depth

/-- `Node::is_symlink`: whether a symlink target was captured. -/
def Node.is_symlink (n : Node) : Bool := n.symlink_target.isSome

/-- `Node::symlink_target_path`. -/
def Node.symlink_target_path (n : Node) : Option FsPath := n.symlink_target

/-- `Node::symlink_target_file_name`: file name of the symlink target,
when the node represents a symlink and the target has a file name. -/
def Node.symlink_target_file_name (n : Node) : Option String :=
  n.symlink_target_path.bind (fun p => p.file_name)

/-- `Node::file_type`: the cached file type of the entry. -/
def Node.file_type (n : Node) : Option FileType := n.dir_entry.file_type

/-- `Node::is_dir`. -/
def Node.is_dir (n : Node) : Bool :=
  (n.file_type.map FileType.is_dir).getD false

/-- `Node::path`. -/
def Node.path (n : Node) : FsPath := n.dir_entry.path

/-- `Node::set_file_size`: sets `file_size` (the one mutator; in this pure
embedding it returns the updated node). -/
def Node.set_file_size (n : Node) (size : FileSize) : Node :=
  { n with file_size := some size }

/-- `Node::mode`: attempts to decode the symbolic permissions from the
metadata snapshot; the one display-time fallible accessor. -/
def Node.mode (n : Node) : Except Error FileMode :=
  n.metadata.permissions.try_mode_symbolic

/-- `Node::stylize`: paints the entity with the node's resolved style when
that style carries a foreground color, otherwise returns it unmodified. -/
def Node.stylize (n : Node) (entity : String) : String :=
  match n.style with
  | some s =>
    match s.foreground with
    | some fg => boldPaint fg entity
    | none => entity
  | none => entity

/-- `Node::has_xattrs`: whether the captured extended-attribute set is
non-empty. -/
def Node.has_xattrs (n : Node) : Bool :=
  decide (0 < (n.xattrs.map (fun xs => xs.length)).getD 0)

/-- `Node::stylize_link_name`: for a symlink with a target file name, the
styled own name followed by a red arrow-and-target segment. -/
def Node.stylize_link_name (n : Node) : Option String :=
  n.symlink_target_file_name.map (fun name =>
    let styled_name := n.stylize n.file_name_lossy
    let target_name := plainPaint ⟨31⟩ (String.singleton arrowChar ++ " " ++ name)
    styled_name ++ " " ++ target_name)

/-- `Node::style_permissions`: recolors each character of the symbolic
permission string through the permissions theme, dropping characters with no
theme entry; the `unwrap` of the theme once-cell is modelled as `none` on
failure (a panic). -/
def Node.style_permissions (env : Env) (perm_str : String) : Option String :=
  match env.permissions_theme with
  | .error _ => none
  | .ok theme =>
    some (String.join (perm_str.toList.filterMap (fun ch =>
      (theme ch).map (fun color => plainPaint color (String.singleton ch)))))

/-! ## Icon resolution -/

/-- The `paint_icon` closure of `Node::compute_icon`: paints the icon with
the node's resolved foreground color only when stdout is a tty and color is
not disabled; in every other case the plain icon is kept. -/
def paint_icon (env : Env) (style : Option Style) (no_color : Bool) (icon : String) :
    Option String :=
  match style with
  | some s =>
    match s.foreground with
    | some fg =>
      if env.stdout_is_tty && !no_color then some (boldPaint fg icon) else some icon
    | none => some icon
  | none => some icon

/-- The extension source selected by `Node::compute_icon`: the symlink
target's extension when the entry is a symlink and a target is known,
otherwise the entry's own path extension. -/
def ext_source (entry : DirEntry) (link_target : Option FsPath) : Option String :=
  match link_target with
  | some target => if entry.path_is_symlink then target.extension else entry.path.extension
  | none => entry.path.extension

/-- `Node::compute_icon`: icon resolution with precedence file-type, then
extension, then file name, then the default fallback. -/
def Node.compute_icon (env : Env) (entry : DirEntry) (link_target : Option FsPath)
    (style : Option Style) (no_color : Bool) : Option String :=
  match entry.file_type.bind env.icon_from_file_type with
  | some icon => paint_icon env style no_color icon
  | none =>
    match ((ext_source entry link_target).bind env.icon_from_ext).map
        (fun attrs => if no_color || !env.stdout_is_tty then attrs.2
                      else icons_col attrs.1 attrs.2) with
    | some icon => some icon
    | none =>
      match (env.icon_from_file_name entry.file_name).bind (paint_icon env style no_color) with
      | some icon => some icon
      | none =>
        if no_color then some env.default_icon.2
        else some (icons_col env.default_icon.1 env.default_icon.2)

/-! ## Display composition -/

/-- The size column of `Node::display`: the formatted size, or the blank
placeholder of equal width when no size is available. -/
def Node.display_size (n : Node) (ctx : Context) : String :=
  match n.file_size with
  | some s => FileSize.format s true
  | none => FileSize.empty_string ctx

/-- The icon column of `Node::display`: the icon (empty when absent) padded
to one less than its length, which adds no padding in practice and keeps the
glyph as printed. -/
def Node.display_icon (n : Node) : String :=
  padTo (n.icon.getD "") (if (n.icon.getD "").length > 1 then (n.icon.getD "").length - 1 else 0)

/-- The name column of `Node::display`: the raw file name when color is
globally disabled; otherwise the styled symlink name with arrow-and-target
suffix, falling back to the styled own name. -/
def Node.display_file_name (n : Node) (ctx : Context) : String :=
  if ctx.no_color then n.file_name
  else (n.stylize_link_name).getD (n.stylize n.file_name_lossy)

/-- `Node::display`: one formatted line. In long format the permission block
(decoded mode plus the extended-attribute marker or a space, styled through
the theme unless color is off) is left-padded to its length plus two and
put before the size column. The two `unwrap` calls of the source (mode
decode and theme access) are modelled as `none` results (panics). -/
def Node.display (env : Env) (n : Node) (pre : String) (ctx : Context) : Option String :=
  let size := Node.display_size n ctx
  let file_name := Node.display_file_name n ctx
  if ctx.long then
    match n.mode with
    | .error _ => none
    | .ok file_mode =>
      let mode0 := if n.has_xattrs then file_mode.symbolic ++ "@"
                   else file_mode.symbolic ++ " "
      match (if !ctx.no_color then Node.style_permissions env mode0 else some mode0) with
      | none => none
      | some mode =>
        some (padTo mode (mode.length + 2) ++ size ++ " " ++ pre ++
          Node.display_icon n ++ file_name)
  else
    some (size ++ " " ++ pre ++ Node.display_icon n ++ file_name)

/-! ## Construction -/

/-- The `TryFrom<(DirEntry, &Context)>` implementation for `Node`: resolve
the symlink target (best effort), fetch metadata (the only fallible step,
propagated as a typed error), resolve the style (absent table degrades to
no style, a rule miss degrades to the default style), resolve the size only
for regular files with suppression off, resolve the icon only when icons are
enabled, take the inode if available, and query extended attributes only in
long format. -/
def Node.try_from (env : Env) (dir_entry : DirEntry) (ctx : Context) : Except Error Node :=
  let path := dir_entry.path
  let link_target := dir_entry.symlink_target
  match dir_entry.metadata_result with
  | .error e => .error (.dir_entry e)
  | .ok metadata =>
    let style :=
      match env.ls_colors with
      | .error _ => none
      | .ok ls_colors =>
        match ls_colors.style_for_path_with_metadata path metadata with
        | some s => some s
        | none => some Style.default
    let file_size :=
      match dir_entry.file_type with
      | some ft =>
        if ft.is_file && !ctx.suppress_size then
          match ctx.disk_usage with
          | .logical => some (FileSize.logical metadata ctx.unit ctx.scale)
          | .physical => FileSize.physical path metadata ctx.unit ctx.scale
        else none
      | none => none
    let icon :=
      if ctx.icons then
        Node.compute_icon env dir_entry link_target style ctx.no_color
      else none
    let inode := metadata.inode
    let xattrs := if ctx.long then dir_entry.entry_xattrs else none
    .ok (Node.new dir_entry metadata file_size style icon link_target inode xattrs)

/-! ## Concrete fixtures used by witnesses and counterexamples -/

/-- A path with a known file name and extension. -/
def pathRs : FsPath := ⟨some "a.rs", some "rs"⟩

/-- A path with a file name and no extension. -/
def pathPlain : FsPath := ⟨some "LINK", none⟩

/-- A metadata snapshot with decodable permissions and no physical size. -/
def mdOk : Metadata := ⟨100, .decodable ⟨"-rwxr-xr--"⟩, none, some ⟨7⟩⟩

/-- A metadata snapshot whose permission bits cannot be decoded. -/
def mdBadPerm : Metadata := ⟨4, .undecodable, none, none⟩

/-- A regular-file directory entry with successful metadata fetch. -/
def deReg : DirEntry :=
  ⟨pathRs, "a.rs", 1, some .file, false, .ok mdOk, none, none⟩

/-- A symlink directory entry pointing at a target with extension "rs". -/
def deLink : DirEntry :=
  ⟨pathPlain, "LINK", 1, some .symlink, true, .ok mdOk, some pathRs, none⟩

/-- An environment with no tty, no tables and an all-miss icon lookup;
the default icon pair is (7, "d"). -/
def envBase : Env :=
  { stdout_is_tty := false
    ls_colors := .error .uninitialized
    permissions_theme := .error .uninitialized
    icon_from_file_type := fun _ => none
    icon_from_ext := fun _ => none
    icon_from_file_name := fun _ => none
    default_icon := (7, "d") }

/-! ## Helper lemmas -/

/-- The `paint_icon` closure never fails: every branch yields a value. -/
theorem paint_icon_isSome (env : Env) (style : Option Style) (nc : Bool) (i : String) :
    (paint_icon env style nc i).isSome = true := by
  unfold paint_icon
  rcases style with _ | s
  · rfl
  · rcases s with ⟨fg⟩
    rcases fg with _ | c
    · rfl
    · dsimp only
      split <;> rfl

/-! ## Claim C1 -/

/-- Claim C1: icon resolution follows strict first-match precedence.
A defined file-type icon wins outright (painted only with the node's own
style); otherwise the extension icon, where the extension is read from the
symlink target when the entry is a symlink with a known target and from the
entry's own path otherwise; otherwise the file-name icon; otherwise the
default fallback. -/
theorem icon_precedence_order (env : Env) (entry : DirEntry) (lt : Option FsPath)
    (style : Option Style) (nc : Bool) :
    (∀ i, entry.file_type.bind env.icon_from_file_type = some i →
       Node.compute_icon env entry lt style nc = paint_icon env style nc i)
    ∧ (∀ t, lt = some t → entry.path_is_symlink = true →
        ext_source entry lt = t.extension)
    ∧ (entry.path_is_symlink = false → ext_source entry lt = entry.path.extension)
    ∧ (lt = none → ext_source entry lt = entry.path.extension)
    ∧ (∀ e c g, entry.file_type.bind env.icon_from_file_type = none →
        ext_source entry lt = some e → env.icon_from_ext e = some (c, g) →
        Node.compute_icon env entry lt style nc =
          some (if nc || !env.stdout_is_tty then g else icons_col c g))
    ∧ (∀ i, entry.file_type.bind env.icon_from_file_type = none →
        (ext_source entry lt).bind env.icon_from_ext = none →
        env.icon_from_file_name entry.file_name = some i →
        Node.compute_icon env entry lt style nc = paint_icon env style nc i)
    ∧ (entry.file_type.bind env.icon_from_file_type = none →
        (ext_source entry lt).bind env.icon_from_ext = none →
        env.icon_from_file_name entry.file_name = none →
        Node.compute_icon env entry lt style nc =
          (if nc then some env.default_icon.2
           else some (icons_col env.default_icon.1 env.default_icon.2))) := by
  refine ⟨?_, ?_, ?_, ?_, ?_, ?_, ?_⟩
  · intro i h
    simp only [Node.compute_icon, h]
  · intro t h hsym
    simp only [ext_source, h, hsym, if_true]
  · intro hsym
    unfold ext_source
    rcases lt with _ | t
    · rfl
    · simp only [hsym, Bool.false_eq_true, if_false]
  · intro h
    simp only [ext_source, h]
  · intro e c g h1 h2 h3
    simp only [Node.compute_icon, h1, h2, h3, Option.some_bind, Option.map_some']
  · intro i h1 h2 h3
    have hp := paint_icon_isSome env style nc i
    rcases hps : paint_icon env style nc i with _ | v
    · rw [hps] at hp; simp at hp
    · simp only [Node.compute_icon, h1, h2, h3, Option.map_none', Option.some_bind, hps]
  · intro h1 h2 h3
    simp only [Node.compute_icon, h1, h2, h3, Option.map_none', Option.none_bind]

/-- Witness for C1: with a file-type icon "D" defined for directories and no
color, the computed icon is exactly "D" even though an extension rule for
"rs" also matches. -/
def envTypeD : Env :=
  { envBase with
    icon_from_file_type := fun ft => match ft with | .dir => some "D" | _ => none
    icon_from_ext := fun e => if e = "rs" then some (5, "R") else none }

/-- A directory entry whose extension would also match an icon rule. -/
def deDirRs : DirEntry :=
  ⟨pathRs, "a.rs", 0, some .dir, false, .ok mdOk, none, none⟩

/-- Claim C1 witness: the file-type icon wins at a concrete input. -/
theorem icon_precedence_order_witness :
    Node.compute_icon envTypeD deDirRs none none true = some "D" :=
  ((icon_precedence_order envTypeD deDirRs none none true).1 "D" rfl).trans rfl

/-! ## Claim C10 -/

/-- Claim C10: the symlink-target override applies only to the extension
step. Two targets with the same extension give the same icon whatever their
file names, and the file-name lookup (precedence step 3) always receives the
symlink's own file name. -/
theorem link_target_only_affects_ext (env : Env) (entry : DirEntry) (t1 t2 : FsPath)
    (style : Option Style) (nc : Bool) :
    (t1.extension = t2.extension →
       Node.compute_icon env entry (some t1) style nc =
         Node.compute_icon env entry (some t2) style nc)
    ∧ (∀ i, entry.file_type.bind env.icon_from_file_type = none →
        (ext_source entry (some t1)).bind env.icon_from_ext = none →
        env.icon_from_file_name entry.file_name = some i →
        Node.compute_icon env entry (some t1) style nc = paint_icon env style nc i) := by
  constructor
  · intro hext
    have h : ext_source entry (some t1) = ext_source entry (some t2) := by
      unfold ext_source
      cases hs : entry.path_is_symlink <;> simp only [if_true, if_false, hext]
    unfold Node.compute_icon
    rw [h]
  · intro i h1 h2 h3
    have hp := paint_icon_isSome env style nc i
    rcases hps : paint_icon env style nc i with _ | v
    · rw [hps] at hp; simp at hp
    · simp only [Node.compute_icon, h1, h2, h3, Option.map_none', Option.some_bind, hps]

/-- Two symlink targets with different names but the same "rs" extension. -/
def pathRs2 : FsPath := ⟨some "other.rs", some "rs"⟩

/-- Claim C10 witness: at a concrete symlink entry, swapping the target for
one with the same extension leaves the computed icon unchanged. -/
theorem link_target_only_affects_ext_witness :
    Node.compute_icon envBase deLink (some pathRs) none true =
      Node.compute_icon envBase deLink (some pathRs2) none true :=
  (link_target_only_affects_ext envBase deLink pathRs pathRs2 none true).1 rfl

/-! ## Claim C8 -/

set_option maxRecDepth 8192 in
/-- Claim C8 is contradicted by the default-fallback branch of
`Node::compute_icon`, in conflict with the function's own documentation
("Icon will be colorless if stdout isn't a tty or if no_color is true"):
with color enabled but stdout not a tty, and no type, extension or name
match, the returned default icon is wrapped in a color escape sequence
instead of being the plain glyph. -/
theorem default_icon_colored_without_tty :
    envBase.stdout_is_tty = false
    ∧ Node.compute_icon envBase deReg none none false = some (icons_col 7 "d")
    ∧ icons_col 7 "d" ≠ "d"
    ∧ containsChar (icons_col 7 "d") escChar = true := by
  refine ⟨rfl, rfl, ?_, ?_⟩ <;> decide

/-! ## Claim C3 -/

/-- A plain short-format, color-off, icon-off context. -/
def ctxPlain : Context := ⟨true, false, false, .logical, .bin, 2, false⟩

/-- Claim C3: construction fails if and only if the metadata fetch fails,
and the failure is propagated as the typed error wrapping the underlying
one; on a successful fetch a node is produced (whatever the other
subsystems — style table, symlink target, physical size, inode, extended
attributes — returned, since they are universally quantified here). -/
theorem construction_fails_iff_metadata (env : Env) (de : DirEntry) (ctx : Context) :
    (∀ e, Node.try_from env de ctx = .error (.dir_entry e) ↔
       de.metadata_result = .error e)
    ∧ (∀ m, de.metadata_result = .ok m →
       (Node.try_from env de ctx).map (fun n => n.metadata) = .ok m)
    ∧ (Node.try_from env de ctx).isOk = de.metadata_result.isOk := by
  refine ⟨?_, ?_, ?_⟩
  · intro e
    rcases hm : de.metadata_result with e' | m
    · simp only [Node.try_from, hm, Except.error.injEq, Error.dir_entry.injEq]
    · simp only [Node.try_from, hm]
      constructor <;> intro h <;> cases h
  · intro m hm
    simp only [Node.try_from, hm, Except.map, Node.new]
  · rcases hm : de.metadata_result with e | m <;>
      simp only [Node.try_from, hm, Except.isOk, Except.toBool]

/-- Claim C3 witness: at a concrete entry with a successful metadata fetch,
construction succeeds and captures exactly that metadata; at a concrete
entry with a failing fetch, construction fails with the wrapped error. -/
theorem construction_fails_iff_metadata_witness :
    (Node.try_from envBase deReg ctxPlain).map (fun n => n.metadata) = .ok mdOk
    ∧ (Node.try_from envBase
        ⟨pathRs, "a.rs", 1, some .file, false, .error (.ioError 13), none, none⟩
        ctxPlain = .error (.dir_entry (.ioError 13))) :=
  ⟨(construction_fails_iff_metadata envBase deReg ctxPlain).2.1 mdOk rfl,
   ((construction_fails_iff_metadata envBase
      ⟨pathRs, "a.rs", 1, some .file, false, .error (.ioError 13), none, none⟩
      ctxPlain).1 (.ioError 13)).mpr rfl⟩

/-! ## Claim C4 -/

/-- A physical-disk-usage context with size suppression off. -/
def ctxPhys : Context := ⟨true, false, false, .physical, .bin, 2, false⟩

/-- Claim C4 counterexample: a regular file with size suppression off whose
node nevertheless carries no size — the context selects physical disk usage
and the physical-size query yields nothing, which the code stores as-is. -/
theorem physical_size_miss_counterexample :
    deReg.file_type = some .file
    ∧ FileType.is_file .file = true
    ∧ ctxPhys.suppress_size = false
    ∧ mdOk.physical_size = none
    ∧ (Node.try_from envBase deReg ctxPhys).map (fun n => n.file_size) = .ok none :=
  ⟨rfl, rfl, rfl, rfl, rfl⟩

/-- Claim C4 as amended: for a regular file with suppression off the size is
the logical size under logical disk usage, and exactly the result of the
physical-size computation (possibly absent) under physical disk usage; for a
suppressed, untyped or non-regular entry the size is absent. -/
theorem size_policy (env : Env) (de : DirEntry) (ctx : Context) (m : Metadata)
    (ft : FileType) :
    (de.metadata_result = .ok m → de.file_type = some ft → ft.is_file = true →
       ctx.suppress_size = false → ctx.disk_usage = .logical →
       (Node.try_from env de ctx).map (fun n => n.file_size) =
         .ok (some (FileSize.logical m ctx.unit ctx.scale)))
    ∧ (de.metadata_result = .ok m → de.file_type = some ft → ft.is_file = true →
       ctx.suppress_size = false → ctx.disk_usage = .physical →
       (Node.try_from env de ctx).map (fun n => n.file_size) =
         .ok (FileSize.physical de.path m ctx.unit ctx.scale))
    ∧ (de.metadata_result = .ok m → ctx.suppress_size = true →
       (Node.try_from env de ctx).map (fun n => n.file_size) = .ok none)
    ∧ (de.metadata_result = .ok m → de.file_type = none →
       (Node.try_from env de ctx).map (fun n => n.file_size) = .ok none)
    ∧ (de.metadata_result = .ok m → de.file_type = some ft → ft.is_file = false →
       (Node.try_from env de ctx).map (fun n => n.file_size) = .ok none) := by
  refine ⟨?_, ?_, ?_, ?_, ?_⟩
  · intro hm hft hf hs hd
    simp only [Node.try_from, hm, hft, hf, hs, hd, Bool.not_false, Bool.and_self,
      if_true, Except.map, Node.new]
  · intro hm hft hf hs hd
    simp only [Node.try_from, hm, hft, hf, hs, hd, Bool.not_false, Bool.and_self,
      if_true, Except.map, Node.new]
  · intro hm hs
    rcases hft : de.file_type with _ | ft' <;>
      simp only [Node.try_from, hm, hft, hs, Bool.not_true, Bool.and_false,
        Bool.false_eq_true, if_false, Except.map, Node.new]
  · intro hm hft
    simp only [Node.try_from, hm, hft, Except.map, Node.new]
  · intro hm hft hf
    simp only [Node.try_from, hm, hft, hf, Bool.false_and, Bool.false_eq_true,
      if_false, Except.map, Node.new]

/-- Claim C4 witness (for the amended statement): concrete logical-mode and
suppressed-size instances. -/
theorem size_policy_witness :
    (Node.try_from envBase deReg ctxPlain).map (fun n => n.file_size) =
      .ok (some (FileSize.logical mdOk .bin 2))
    ∧ (Node.try_from envBase deReg ⟨true, false, true, .logical, .bin, 2, false⟩).map
        (fun n => n.file_size) = .ok none :=
  ⟨(size_policy envBase deReg ctxPlain mdOk .file).1 rfl rfl rfl rfl rfl,
   (size_policy envBase deReg ⟨true, false, true, .logical, .bin, 2, false⟩ mdOk .file).2.2.1
     rfl rfl⟩

/-! ## Claim C9 -/

/-- An LS_COLORS table with no matching rule for any path. -/
def lsNone : LsColors := ⟨fun _ _ => none⟩

/-- An environment whose LS_COLORS table is available but matches nothing. -/
def envLsNone : Env := { envBase with ls_colors := .ok lsNone }

/-- Claim C9 counterexample: when the LS_COLORS table is available but no
rule matches the path, the node's style field is `some Style.default`, not
`none` — the code substitutes the default style on a rule miss. -/
theorem style_rule_miss_counterexample :
    lsNone.style_for_path_with_metadata deReg.path mdOk = none
    ∧ envLsNone.ls_colors = .ok lsNone
    ∧ (Node.try_from envLsNone deReg ctxPlain).map (fun n => n.style) =
        .ok (some Style.default)
    ∧ some Style.default ≠ (none : Option Style) :=
  ⟨rfl, rfl, rfl, by simp⟩

/-- Claim C9 as amended: the style field is `none` exactly when the
LS_COLORS table is unavailable (how color-off is realized by the external
styles module); with the table available, a rule miss yields
`some Style.default` — which has no foreground color and therefore renders
unstyled — and a match yields that style; resolution never fails. -/
theorem style_resolution_policy (env : Env) (de : DirEntry) (ctx : Context)
    (m : Metadata) (ls : LsColors) (st : Style) :
    (de.metadata_result = .ok m → env.ls_colors.isOk = false →
       (Node.try_from env de ctx).map (fun n => n.style) = .ok none)
    ∧ (de.metadata_result = .ok m → env.ls_colors = .ok ls →
       ls.style_for_path_with_metadata de.path m = none →
       (Node.try_from env de ctx).map (fun n => n.style) = .ok (some Style.default))
    ∧ (de.metadata_result = .ok m → env.ls_colors = .ok ls →
       ls.style_for_path_with_metadata de.path m = some st →
       (Node.try_from env de ctx).map (fun n => n.style) = .ok (some st))
    ∧ Style.default.foreground = none := by
  refine ⟨?_, ?_, ?_, rfl⟩
  · intro hm hls
    rcases he : env.ls_colors with e | ls'
    · simp only [Node.try_from, hm, he, Except.map, Node.new]
    · rw [he] at hls; cases hls
  · intro hm hls hmiss
    simp only [Node.try_from, hm, hls, hmiss, Except.map, Node.new]
  · intro hm hls hhit
    simp only [Node.try_from, hm, hls, hhit, Except.map, Node.new]

/-- Claim C9 witness (for the amended statement): with the table
unavailable, the concrete node's style is absent. -/
theorem style_resolution_policy_witness :
    (Node.try_from envBase deReg ctxPlain).map (fun n => n.style) = .ok none :=
  (style_resolution_policy envBase deReg ctxPlain mdOk lsNone Style.default).1 rfl rfl

/-! ## Claim C6 -/

/-- Two distinct file sizes. -/
def fsA : FileSize := ⟨1, .bin, 2⟩

/-- A second, different file size. -/
def fsB : FileSize := ⟨2, .bin, 2⟩

/-- A concrete constructed node. -/
def nPlain : Node := Node.new deReg mdOk none none none none none none

/-- Claim C6 counterexample: nothing limits the size overwrite to one — a
second `set_file_size` call also takes effect, replacing the first value. -/
theorem second_overwrite_counterexample :
    ((nPlain.set_file_size fsA).set_file_size fsB).file_size = some fsB
    ∧ (nPlain.set_file_size fsA).file_size = some fsA
    ∧ fsB ≠ fsA :=
  ⟨rfl, rfl, by decide⟩

/-- Claim C6 as amended: `set_file_size` is the only mutator and it changes
only the `file_size` field, leaving every other field unchanged; but the
code does not enforce an at-most-once discipline — every call overwrites. -/
theorem set_file_size_frame (n : Node) (s : FileSize) :
    (n.set_file_size s).file_size = some s
    ∧ (n.set_file_size s).dir_entry = n.dir_entry
    ∧ (n.set_file_size s).metadata = n.metadata
    ∧ (n.set_file_size s).style = n.style
    ∧ (n.set_file_size s).icon = n.icon
    ∧ (n.set_file_size s).symlink_target = n.symlink_target
    ∧ (n.set_file_size s).inode = n.inode
    ∧ (n.set_file_size s).xattrs = n.xattrs :=
  ⟨rfl, rfl, rfl, rfl, rfl, rfl, rfl, rfl⟩

/-! ## Claim C2 -/

/-- A long-format context with color enabled. -/
def ctxLong : Context := ⟨false, true, false, .logical, .bin, 2, false⟩

/-- A directory entry whose metadata fetch succeeds but whose permission
bits cannot be decoded. -/
def deBadPerm : DirEntry :=
  ⟨pathRs, "a.rs", 1, some .file, false, .ok mdBadPerm, none, some []⟩

/-- A constructed node carrying undecodable permission bits. -/
def nBadPerm : Node := Node.new deBadPerm mdBadPerm none none none none none (some [])

/-- Claim C2 counterexample: on a node whose permission bits cannot be
decoded, long-format display does not produce a line with placeholder text —
the `unwrap` of the decode result aborts (modelled as no output at all). -/
theorem mode_error_aborts_display_counterexample :
    ctxLong.long = true
    ∧ Node.mode nBadPerm = .error .permission_decode
    ∧ Node.display envBase nBadPerm "" ctxLong = none :=
  ⟨rfl, rfl, rfl⟩

/-- Claim C2 as amended: a permission-decode failure never prevents node
construction (construction ignores decodability entirely and decoding is
deferred to display), and display outside long format never consults the
permissions; but when long-format display is requested on a node whose mode
cannot be decoded, the rendering aborts (an `unwrap` panic) instead of
reporting the failure in that one line. -/
theorem permission_failure_deferred (env : Env) (de : DirEntry) (ctx : Context)
    (m : Metadata) (n : Node) (pre : String) :
    (de.metadata_result = .ok m → (Node.try_from env de ctx).isOk = true)
    ∧ (ctx.long = true → Node.mode n = .error .permission_decode →
       Node.display env n pre ctx = none)
    ∧ (ctx.long = false → (Node.display env n pre ctx).isSome = true) := by
  refine ⟨?_, ?_, ?_⟩
  · intro hm
    simp only [Node.try_from, hm, Except.isOk, Except.toBool]
  · intro hl hmode
    simp only [Node.display, hl, if_true, hmode]
  · intro hl
    simp only [Node.display, hl, Bool.false_eq_true, if_false, Option.isSome_some]

/-- Claim C2 witness (for the amended statement): a node with undecodable
permission bits is still constructed, and its short-format display still
produces a line. -/
theorem permission_failure_deferred_witness :
    (Node.try_from envBase deBadPerm ctxLong).isOk = true
    ∧ (Node.display envBase nBadPerm "x" ctxPlain).isSome = true :=
  ⟨(permission_failure_deferred envBase deBadPerm ctxLong mdBadPerm nBadPerm "x").1 rfl,
   (permission_failure_deferred envBase deBadPerm ctxPlain mdBadPerm nBadPerm "x").2.2 rfl⟩

/-! ## Claim C5 -/

/-- Claim C5: when color is globally disabled, the name column is the raw
file name — also for symlinks, whose arrow-and-target suffix is suppressed —
so it contains no escape character unless the on-disk name itself does; and
the short-format display line is composed around that raw name. -/
theorem no_color_raw_name (env : Env) (n : Node) (ctx : Context) (pre : String)
    (h : ctx.no_color = true) :
    Node.display_file_name n ctx = n.file_name
    ∧ (∀ t, n.symlink_target = some t → Node.display_file_name n ctx = n.file_name)
    ∧ (containsChar n.file_name escChar = false →
       containsChar (Node.display_file_name n ctx) escChar = false)
    ∧ (ctx.long = false →
       Node.display env n pre ctx =
         some (Node.display_size n ctx ++ " " ++ pre ++ Node.display_icon n ++
           n.file_name)) := by
  have hname : Node.display_file_name n ctx = n.file_name := by
    simp only [Node.display_file_name, h, if_true]
  refine ⟨hname, fun _ _ => hname, ?_, ?_⟩
  · intro hesc
    rw [hname]; exact hesc
  · intro hl
    simp only [Node.display, hl, Bool.false_eq_true, if_false, hname]

/-- A symlink node that carries both a styled foreground and a resolved
target, to exercise the suppression of both under no-color. -/
def nLinkStyled : Node :=
  Node.new deLink mdOk none (some ⟨some ⟨31⟩⟩) none (some pathRs) none none

/-- Claim C5 witness: at a concrete styled symlink node under a no-color
context, the name column is the raw symlink name and the short-format line
embeds it. -/
theorem no_color_raw_name_witness :
    ctxPlain.no_color = true
    ∧ Node.display_file_name nLinkStyled ctxPlain = nLinkStyled.file_name
    ∧ Node.display envBase nLinkStyled "" ctxPlain =
        some (Node.display_size nLinkStyled ctxPlain ++ " " ++ "" ++
          Node.display_icon nLinkStyled ++ nLinkStyled.file_name) :=
  ⟨rfl,
   (no_color_raw_name envBase nLinkStyled ctxPlain "" rfl).1,
   (no_color_raw_name envBase nLinkStyled ctxPlain "" rfl).2.2.2 rfl⟩

/-! ## Claim C7 -/

/-- Appending one theme-less character or another to a permission string
makes no difference to the styled output: both are dropped by the
skip-unknown policy of `Node::style_permissions`. -/
theorem style_permissions_append_unthemed (env : Env) (theme : Char → Option Color)
    (s : String) (c1 c2 : Char) (hth : env.permissions_theme = .ok theme)
    (h1 : theme c1 = none) (h2 : theme c2 = none) :
    Node.style_permissions env (s ++ String.singleton c1) =
      Node.style_permissions env (s ++ String.singleton c2) := by
  simp only [Node.style_permissions, hth]
  have e1 : (s ++ String.singleton c1).toList = s.toList ++ [c1] := rfl
  have e2 : (s ++ String.singleton c2).toList = s.toList ++ [c2] := rfl
  rw [e1, e2, List.filterMap_append, List.filterMap_append]
  simp [List.filterMap_cons, h1, h2]

/-- A themed character is recolored through the theme lookup. -/
theorem style_permissions_char_themed (env : Env) (theme : Char → Option Color)
    (ch : Char) (c : Color) (hth : env.permissions_theme = .ok theme)
    (h : theme ch = some c) :
    Node.style_permissions env (String.singleton ch) =
      some (plainPaint c (String.singleton ch)) := by
  simp only [Node.style_permissions, hth]
  have e : (String.singleton ch).toList = [ch] := rfl
  rw [e]
  simp [List.filterMap_cons, h, String.join]

/-- Claim C7 as amended: in long format with color enabled each character is
independently recolored via the theme and characters with no theme entry are
dropped; the trailing extended-attribute marker is appended before styling
and passes through the same theme lookup, so with no theme entry for the
marker characters it is dropped from the colored output — an
extended-attribute-bearing node renders identically to a non-bearing one. -/
theorem xattr_marker_themed (env : Env) (theme : Char → Option Color)
    (de : DirEntry) (md : Metadata) (fs : Option FileSize) (st : Option Style)
    (ic : Option String) (lt : Option FsPath) (ino : Option Inode)
    (xs : List String) (ctx : Context) (pre : String) (ch : Char) (c : Color)
    (hth : env.permissions_theme = .ok theme)
    (hat : theme '@' = none) (hsp : theme ' ' = none)
    (hl : ctx.long = true) (hc : ctx.no_color = false) :
    (theme ch = some c →
       Node.style_permissions env (String.singleton ch) =
         some (plainPaint c (String.singleton ch)))
    ∧ (theme ch = none → Node.style_permissions env (String.singleton ch) = some "")
    ∧ Node.display env (Node.new de md fs st ic lt ino (some xs)) pre ctx =
        Node.display env (Node.new de md fs st ic lt ino none) pre ctx := by
  refine ⟨fun h => style_permissions_char_themed env theme ch c hth h, ?_, ?_⟩
  · intro h
    simp only [Node.style_permissions, hth]
    have e : (String.singleton ch).toList = [ch] := rfl
    rw [e]
    simp [List.filterMap_cons, h, String.join]
  · have hds : Node.display_size (Node.new de md fs st ic lt ino (some xs)) ctx =
        Node.display_size (Node.new de md fs st ic lt ino none) ctx := rfl
    have hdi : Node.display_icon (Node.new de md fs st ic lt ino (some xs)) =
        Node.display_icon (Node.new de md fs st ic lt ino none) := rfl
    have hdf : Node.display_file_name (Node.new de md fs st ic lt ino (some xs)) ctx =
        Node.display_file_name (Node.new de md fs st ic lt ino none) ctx := rfl
    have hmm : Node.mode (Node.new de md fs st ic lt ino (some xs)) =
        Node.mode (Node.new de md fs st ic lt ino none) := rfl
    have hx2 : Node.has_xattrs (Node.new de md fs st ic lt ino none) = false := rfl
    simp only [Node.display, hds, hdi, hdf, hmm, hl, hc, hx2, if_true,
      Bool.not_false, Bool.false_eq_true, if_false]
    have key : ∀ (b : Bool) (s : String),
        Node.style_permissions env (if b then s ++ "@" else s ++ " ") =
          Node.style_permissions env (s ++ " ") := by
      intro b s
      cases b
      · rfl
      · have ht : (if (true : Bool) then s ++ "@" else s ++ " ") = s ++ "@" := rfl
        have ha : s ++ "@" = s ++ String.singleton '@' := rfl
        have hb : s ++ " " = s ++ String.singleton ' ' := rfl
        rw [ht, ha, hb,
          style_permissions_append_unthemed env theme s '@' ' ' hth hat hsp]
    rcases hmode : Node.mode (Node.new de md fs st ic lt ino none) with e | fm
    · rfl
    · simp only [key]

/-- A permissions theme covering the permission characters, with no entry
for the marker characters, modelled from the spec ("permission-to-color
theme", a character-to-color lookup for the symbolic string). -/
def themeRwx : Char → Option Color := fun ch =>
  if ch = 'r' then some ⟨32⟩
  else if ch = 'w' then some ⟨33⟩
  else if ch = 'x' then some ⟨31⟩
  else if ch = '-' then some ⟨90⟩
  else none

/-- An environment carrying the permissions theme above. -/
def envTheme : Env := { envBase with permissions_theme := .ok themeRwx }

/-- Metadata with the decodable symbolic mode "rwx". -/
def mdRwx : Metadata := ⟨9, .decodable ⟨"rwx"⟩, none, none⟩

/-- An entry with one extended attribute. -/
def deRwx : DirEntry :=
  ⟨pathRs, "f", 0, some .file, false, .ok mdRwx, none, some ["user.attr"]⟩

/-- A node bearing one extended attribute. -/
def nXattr : Node := Node.new deRwx mdRwx none none none none none (some ["user.attr"])

set_option maxRecDepth 8192 in
/-- Claim C7 counterexample: in long format with color enabled, a node with
an extended attribute produces a line that contains no '@' at all — the
marker was appended before styling and then dropped by the theme lookup, so
it is not an uncolorized trailing marker as claimed. -/
theorem xattr_marker_dropped_counterexample :
    nXattr.has_xattrs = true
    ∧ ctxLong.long = true
    ∧ ctxLong.no_color = false
    ∧ (Node.display envTheme nXattr "" ctxLong).isSome = true
    ∧ containsChar ((Node.display envTheme nXattr "" ctxLong).getD "") '@' = false := by
  refine ⟨rfl, rfl, rfl, ?_, ?_⟩ <;> decide

/-- Claim C7 witness (for the amended statement): a concrete themed
character is repainted, the concrete marker character is dropped, and the
concrete extended-attribute node displays identically to its
attribute-free twin. -/
theorem xattr_marker_themed_witness :
    Node.style_permissions envTheme (String.singleton 'r') =
      some (plainPaint ⟨32⟩ (String.singleton 'r'))
    ∧ Node.style_permissions envTheme (String.singleton '@') = some ""
    ∧ Node.display envTheme nXattr "" ctxLong =
        Node.display envTheme (Node.new deRwx mdRwx none none none none none none)
          "" ctxLong :=
  ⟨(xattr_marker_themed envTheme themeRwx deRwx mdRwx none none none none none
      ["user.attr"] ctxLong "" 'r' ⟨32⟩ rfl rfl rfl rfl rfl).1 rfl,
   (xattr_marker_themed envTheme themeRwx deRwx mdRwx none none none none none
      ["user.attr"] ctxLong "" '@' ⟨32⟩ rfl rfl rfl rfl rfl).2.1 rfl,
   (xattr_marker_themed envTheme themeRwx deRwx mdRwx none none none none none
      ["user.attr"] ctxLong "" 'r' ⟨32⟩ rfl rfl rfl rfl rfl).2.2⟩
